import Mathlib

/-!
# Verification of the checkupy / pyakern body-composition engine

Shallow embedding of the measurement-transformation and derivation engine of
the `checkupy` repository:

* `src/checkupy/checkupy.py` — classes `BIAInput`, `Fitness`, `Standard`,
  `Inbody`, `CheckupBIA`;
* `src/pyakern/equations.py` — class `BIAMeasure`;
* `src/pyakern/src/corrections.py` — function `_apply`.

Exact values (resistances, reactances, regression coefficients) are modelled
over `ℚ` where the claims are algebraic, and over `ℝ` where square roots and
arctangents appear.  Python runtime errors (`TypeError` on arithmetic with
`None`, `ZeroDivisionError` on float division by zero) are modelled with an
explicit `Except` error type; a `None` stored in an attribute is an
`Option` value.
-/

/-- The `sex` attribute: the Python literal type `Literal["M", "F"]`. -/
inductive Sex
  | M
  | F
deriving DecidableEq

/-- Python runtime errors relevant to the embedded code, plus the
`InvalidCoefficient` error that the specification asks for (no such error
class exists anywhere in the source). -/
inductive PyErr
  | typeError
  | zeroDivisionError
  | invalidCoefficient
deriving DecidableEq

/-! ## Orthostatic correction over `ℚ` (`src/checkupy/checkupy.py`)

`BIAInput` stores one resistance and one reactance per segment and side
(16 values) plus a `_corrected` flag.  The class-level coefficient pairs
`(β0, β1)` are transcribed below from lines 49–64 of the source. -/

def left_arm_resistance_betas : ℚ × ℚ := (-5.929064, 0.874883)

def left_arm_reactance_betas : ℚ × ℚ := (3.304037, 0.686138)

def left_body_resistance_betas : ℚ × ℚ := (29.735312, 0.893878)

def left_body_reactance_betas : ℚ × ℚ := (-5.850700, 1.077053)

def left_leg_resistance_betas : ℚ × ℚ := (22.703793, 0.988802)

def left_leg_reactance_betas : ℚ × ℚ := (-0.196244, 0.988221)

def left_trunk_resistance_betas : ℚ × ℚ := (2.874024, 0.868278)

def left_trunk_reactance_betas : ℚ × ℚ := (7.535099, 0.028624)

def right_arm_resistance_betas : ℚ × ℚ := (-17.392322, 0.904717)

def right_arm_reactance_betas : ℚ × ℚ := (1.392877, 0.782267)

def right_body_resistance_betas : ℚ × ℚ := (-13.248009, 0.971554)

def right_body_reactance_betas : ℚ × ℚ := (4.612482, 0.886881)

def right_leg_resistance_betas : ℚ × ℚ := (3.174666, 1.071437)

def right_leg_reactance_betas : ℚ × ℚ := (-0.259402, 0.991873)

def right_trunk_resistance_betas : ℚ × ℚ := (0.973686, 1.038562)

def right_trunk_reactance_betas : ℚ × ℚ := (8.288528, -0.053032)

/-- The inner `lsq` of `BIAInput.apply_orthostatic_correction`:
`sum(map(prod, zip([1, x], y)))`, i.e. `1*y[0] + x*y[1]`. -/
def lsq (x : ℚ) (y : ℚ × ℚ) : ℚ := 1 * y.1 + x * y.2

/-- The inner `ilsq` of `BIAInput.remove_orthostatic_correction`:
`(x - y[0]) / y[1]`.  (On the fixed table every `y.2` is nonzero; the
`y.2 = 0` behaviour of Python division is modelled separately by
`ilsqE` and `npApply`.) -/
def ilsq (x : ℚ) (y : ℚ × ℚ) : ℚ := (x - y.1) / y.2

/-- The 16 coefficient pairs of the `BIAInput` correction table. -/
def checkupyBetas : List (ℚ × ℚ) :=
  [left_arm_resistance_betas, left_arm_reactance_betas,
   left_body_resistance_betas, left_body_reactance_betas,
   left_leg_resistance_betas, left_leg_reactance_betas,
   left_trunk_resistance_betas, left_trunk_reactance_betas,
   right_arm_resistance_betas, right_arm_reactance_betas,
   right_body_resistance_betas, right_body_reactance_betas,
   right_leg_resistance_betas, right_leg_reactance_betas,
   right_trunk_resistance_betas, right_trunk_reactance_betas]

/-- The 16 electrical values stored by a `BIAInput` object. -/
structure SegVals where
  left_arm_resistance : ℚ
  left_arm_reactance : ℚ
  left_leg_resistance : ℚ
  left_leg_reactance : ℚ
  left_trunk_resistance : ℚ
  left_trunk_reactance : ℚ
  left_body_resistance : ℚ
  left_body_reactance : ℚ
  right_arm_resistance : ℚ
  right_arm_reactance : ℚ
  right_leg_resistance : ℚ
  right_leg_reactance : ℚ
  right_trunk_resistance : ℚ
  right_trunk_reactance : ℚ
  right_body_resistance : ℚ
  right_body_reactance : ℚ
deriving DecidableEq

/-- The mutable state of a `BIAInput` object: the 16 stored electrical
values and the `_corrected` flag. -/
structure BIAState where
  vals : SegVals
  corrected : Bool
deriving DecidableEq

/-- Apply `lsq` with each field's own betas to all 16 stored values
(the body of `apply_orthostatic_correction`). -/
def applyAll (v : SegVals) : SegVals where
  left_arm_resistance := lsq v.left_arm_resistance left_arm_resistance_betas
  left_arm_reactance := lsq v.left_arm_reactance left_arm_reactance_betas
  left_leg_resistance := lsq v.left_leg_resistance left_leg_resistance_betas
  left_leg_reactance := lsq v.left_leg_reactance left_leg_reactance_betas
  left_trunk_resistance := lsq v.left_trunk_resistance left_trunk_resistance_betas
  left_trunk_reactance := lsq v.left_trunk_reactance left_trunk_reactance_betas
  left_body_resistance := lsq v.left_body_resistance left_body_resistance_betas
  left_body_reactance := lsq v.left_body_reactance left_body_reactance_betas
  right_arm_resistance := lsq v.right_arm_resistance right_arm_resistance_betas
  right_arm_reactance := lsq v.right_arm_reactance right_arm_reactance_betas
  right_leg_resistance := lsq v.right_leg_resistance right_leg_resistance_betas
  right_leg_reactance := lsq v.right_leg_reactance right_leg_reactance_betas
  right_trunk_resistance := lsq v.right_trunk_resistance right_trunk_resistance_betas
  right_trunk_reactance := lsq v.right_trunk_reactance right_trunk_reactance_betas
  right_body_resistance := lsq v.right_body_resistance right_body_resistance_betas
  right_body_reactance := lsq v.right_body_reactance right_body_reactance_betas

/-- Apply `ilsq` with each field's own betas to all 16 stored values
(the body of `remove_orthostatic_correction`). -/
def removeAll (v : SegVals) : SegVals where
  left_arm_resistance := ilsq v.left_arm_resistance left_arm_resistance_betas
  left_arm_reactance := ilsq v.left_arm_reactance left_arm_reactance_betas
  left_leg_resistance := ilsq v.left_leg_resistance left_leg_resistance_betas
  left_leg_reactance := ilsq v.left_leg_reactance left_leg_reactance_betas
  left_trunk_resistance := ilsq v.left_trunk_resistance left_trunk_resistance_betas
  left_trunk_reactance := ilsq v.left_trunk_reactance left_trunk_reactance_betas
  left_body_resistance := ilsq v.left_body_resistance left_body_resistance_betas
  left_body_reactance := ilsq v.left_body_reactance left_body_reactance_betas
  right_arm_resistance := ilsq v.right_arm_resistance right_arm_resistance_betas
  right_arm_reactance := ilsq v.right_arm_reactance right_arm_reactance_betas
  right_leg_resistance := ilsq v.right_leg_resistance right_leg_resistance_betas
  right_leg_reactance := ilsq v.right_leg_reactance right_leg_reactance_betas
  right_trunk_resistance := ilsq v.right_trunk_resistance right_trunk_resistance_betas
  right_trunk_reactance := ilsq v.right_trunk_reactance right_trunk_reactance_betas
  right_body_resistance := ilsq v.right_body_resistance right_body_resistance_betas
  right_body_reactance := ilsq v.right_body_reactance right_body_reactance_betas

/-- `BIAInput.apply_orthostatic_correction`: applies only
`if not self.is_corrected()`, and does not change the `_corrected` flag. -/
def apply_orthostatic_correction (st : BIAState) : BIAState :=
  if st.corrected then st else { st with vals := applyAll st.vals }

/-- `BIAInput.remove_orthostatic_correction`: removes only
`if self.is_corrected()`, and does not change the `_corrected` flag. -/
def remove_orthostatic_correction (st : BIAState) : BIAState :=
  if st.corrected then { st with vals := removeAll st.vals } else st

/-- `BIAInput.__init__`: store the 16 values, set the `_corrected` flag
from `corrected_electrical_values`, then
`if self.is_corrected(): self.remove_orthostatic_correction()`. -/
def biaInit (v : SegVals) (corrected_electrical_values : Bool) : BIAState :=
  let st : BIAState := { vals := v, corrected := corrected_electrical_values }
  if st.corrected then remove_orthostatic_correction st else st

/-- `Fitness.__init__`: `super().__init__(...)` followed by an unconditional
call to `self.remove_orthostatic_correction()`. -/
def fitnessInit (v : SegVals) (corrected_electrical_values : Bool) : BIAState :=
  remove_orthostatic_correction (biaInit v corrected_electrical_values)

/-- `Standard.__init__`: `super().__init__(...)` (i.e. `Fitness.__init__`)
followed by an unconditional call to `self.apply_orthostatic_correction()`. -/
def standardInit (v : SegVals) (corrected_electrical_values : Bool) : BIAState :=
  apply_orthostatic_correction (fitnessInit v corrected_electrical_values)

/-! ## Degenerate coefficient tables (`ilsq` and pyakern `_apply`) -/

/-- `ilsq` with Python float-division semantics: `(x - y[0]) / y[1]` raises
`ZeroDivisionError` when `y[1] == 0`. -/
def ilsqE (x : ℚ) (y : ℚ × ℚ) : Except PyErr ℚ :=
  if y.2 = 0 then .error .zeroDivisionError else .ok ((x - y.1) / y.2)

/-- A numpy float64 result: a finite value, a signed infinity, or NaN. -/
inductive NpVal
  | num (q : ℚ)
  | inf
  | negInf
  | nan
deriving DecidableEq

/-- numpy division of a finite value by zero: a positive numerator gives
`inf`, a negative one gives `-inf`, and `0/0` gives `nan` (a RuntimeWarning
is emitted, no exception is raised). -/
def npDivByZero (numerator : ℚ) : NpVal :=
  if 0 < numerator then .inf else if numerator < 0 then .negInf else .nan

/-- The arithmetic core of `_apply` in `src/pyakern/src/corrections.py`:
`out = float(val); if adjust: out = out*b1 + b0; if unadjust:
out = (out - b0)/b1`, where `b0`, `b1` come out of the coefficient
dataframe as numpy float64 values, so a division by `b1 == 0` follows
numpy semantics (`npDivByZero`), not Python `ZeroDivisionError`. -/
def npApply (val b0 b1 : ℚ) (adjust unadjust : Bool) : NpVal :=
  let out := if adjust then val * b1 + b0 else val
  if unadjust then
    (if b1 = 0 then npDivByZero (out - b0) else .num ((out - b0) / b1))
  else .num out

/-! ## Theorems for claims C4, C5, C6, C9 -/

/-- Claim C4: for every value `v` and every coefficient pair `(β0, β1)` of
the `BIAInput` correction table, removing the orthostatic correction after
applying it returns `v` exactly: `ilsq (lsq v p) p = v` (exact over `ℚ`,
hence well within the 1e-9 floating-point tolerance). -/
theorem orthostatic_roundtrip (v : ℚ) (p : ℚ × ℚ) (hp : p ∈ checkupyBetas) :
    ilsq (lsq v p) p = v := by
  fin_cases hp <;>
    · simp only [lsq, ilsq, left_arm_resistance_betas, left_arm_reactance_betas,
        left_body_resistance_betas, left_body_reactance_betas,
        left_leg_resistance_betas, left_leg_reactance_betas,
        left_trunk_resistance_betas, left_trunk_reactance_betas,
        right_arm_resistance_betas, right_arm_reactance_betas,
        right_body_resistance_betas, right_body_reactance_betas,
        right_leg_resistance_betas, right_leg_reactance_betas,
        right_trunk_resistance_betas, right_trunk_reactance_betas]
      rw [div_eq_iff (by norm_num)]
      ring

/-- Witness for `orthostatic_roundtrip`: the round trip at `v = 7` with the
left-arm resistance pair. -/
theorem orthostatic_roundtrip_witness :
    ilsq (lsq 7 left_arm_resistance_betas) left_arm_resistance_betas = 7 :=
  orthostatic_roundtrip 7 left_arm_resistance_betas (by simp [checkupyBetas])

/-- Constructing `Fitness` with `corrected_electrical_values = False` keeps
the input values and the cleared flag: both correction calls are skipped. -/
theorem fitnessInit_raw (v : SegVals) :
    fitnessInit v false = { vals := v, corrected := false } := rfl

/-- Constructing `Standard` with `corrected_electrical_values = False` stores
the forward map applied exactly once to every value. -/
theorem standardInit_raw (v : SegVals) :
    standardInit v false = { vals := applyAll v, corrected := false } := rfl

/-- Claim C5: from the same raw (uncorrected) inputs
(`corrected_electrical_values = False`), `Fitness.__init__` stores the
values unchanged, while `Standard.__init__` stores each value with the
forward linear map applied exactly once: stored = raw*β1 + β0, field by
field with the table's literal coefficients. -/
theorem standard_applies_forward_fitness_keeps_raw (v : SegVals) :
    (fitnessInit v false).vals = v ∧
    (standardInit v false).vals = applyAll v ∧
    (standardInit v false).vals.left_arm_resistance
      = v.left_arm_resistance * 0.874883 + -5.929064 ∧
    (standardInit v false).vals.left_arm_reactance
      = v.left_arm_reactance * 0.686138 + 3.304037 ∧
    (standardInit v false).vals.left_leg_resistance
      = v.left_leg_resistance * 0.988802 + 22.703793 ∧
    (standardInit v false).vals.left_leg_reactance
      = v.left_leg_reactance * 0.988221 + -0.196244 ∧
    (standardInit v false).vals.left_trunk_resistance
      = v.left_trunk_resistance * 0.868278 + 2.874024 ∧
    (standardInit v false).vals.left_trunk_reactance
      = v.left_trunk_reactance * 0.028624 + 7.535099 ∧
    (standardInit v false).vals.left_body_resistance
      = v.left_body_resistance * 0.893878 + 29.735312 ∧
    (standardInit v false).vals.left_body_reactance
      = v.left_body_reactance * 1.077053 + -5.850700 ∧
    (standardInit v false).vals.right_arm_resistance
      = v.right_arm_resistance * 0.904717 + -17.392322 ∧
    (standardInit v false).vals.right_arm_reactance
      = v.right_arm_reactance * 0.782267 + 1.392877 ∧
    (standardInit v false).vals.right_leg_resistance
      = v.right_leg_resistance * 1.071437 + 3.174666 ∧
    (standardInit v false).vals.right_leg_reactance
      = v.right_leg_reactance * 0.991873 + -0.259402 ∧
    (standardInit v false).vals.right_trunk_resistance
      = v.right_trunk_resistance * 1.038562 + 0.973686 ∧
    (standardInit v false).vals.right_trunk_reactance
      = v.right_trunk_reactance * -0.053032 + 8.288528 ∧
    (standardInit v false).vals.right_body_resistance
      = v.right_body_resistance * 0.971554 + -13.248009 ∧
    (standardInit v false).vals.right_body_reactance
      = v.right_body_reactance * 0.886881 + 4.612482 := by
  have hs := standardInit_raw v
  refine ⟨by rw [fitnessInit_raw], by rw [hs], ?_, ?_, ?_, ?_, ?_, ?_, ?_, ?_, ?_, ?_,
    ?_, ?_, ?_, ?_, ?_, ?_⟩ <;>
    · rw [hs]
      simp only [applyAll, lsq, left_arm_resistance_betas,
        left_arm_reactance_betas, left_body_resistance_betas, left_body_reactance_betas,
        left_leg_resistance_betas, left_leg_reactance_betas, left_trunk_resistance_betas,
        left_trunk_reactance_betas, right_arm_resistance_betas, right_arm_reactance_betas,
        right_body_resistance_betas, right_body_reactance_betas, right_leg_resistance_betas,
        right_leg_reactance_betas, right_trunk_resistance_betas, right_trunk_reactance_betas]
      ring

/-- The all-zero electrical values, used as a concrete input below. -/
def zeroVals : SegVals :=
  ⟨0, 0, 0, 0, 0, 0, 0, 0, 0, 0, 0, 0, 0, 0, 0, 0⟩

/-- Claim C9: with `corrected_electrical_values = True`, `BIAInput.__init__`
removes the correction once, the `_corrected` flag is never cleared by
`remove_orthostatic_correction`, and `Fitness.__init__` removes it again, so
each stored value is the inverse map applied twice, `((v-β0)/β1 - β0)/β1`
(spelt out for the left-arm resistance and differing, at `v = 0`, from the
single removal `(v-β0)/β1`); the `standard` member built from the same
corrected input stores the same double-removed values because its
`apply_orthostatic_correction` call is skipped while the flag is set. -/
theorem fitness_double_removal (v : SegVals) :
    (biaInit v true).corrected = true ∧
    (∀ st : BIAState, (remove_orthostatic_correction st).corrected = st.corrected) ∧
    (fitnessInit v true).vals = removeAll (removeAll v) ∧
    (fitnessInit v true).vals.left_arm_resistance
      = ((v.left_arm_resistance - -5.929064) / 0.874883 - -5.929064) / 0.874883 ∧
    standardInit v true = fitnessInit v true ∧
    (fitnessInit zeroVals true).vals.left_arm_resistance
      ≠ ilsq 0 left_arm_resistance_betas := by
  refine ⟨rfl, ?_, rfl, rfl, rfl, ?_⟩
  · intro st
    simp only [remove_orthostatic_correction]
    by_cases h : st.corrected <;> simp [h]
  · norm_num [fitnessInit, biaInit, remove_orthostatic_correction, removeAll, ilsq,
      left_arm_resistance_betas, zeroVals]

/-- Claim C6 (code bug): removing the correction with a degenerate
coefficient table whose slope `β1` is zero does not signal any
`InvalidCoefficient` error: the pyakern `_apply` propagates a numpy
infinity (`(5 - 0)/0 = inf`), and checkupy's `ilsq` raises Python's
built-in `ZeroDivisionError`. -/
theorem beta1_zero_no_invalid_coefficient :
    npApply 5 0 0 false true = NpVal.inf ∧
    ilsqE 5 (0, 0) = Except.error PyErr.zeroDivisionError ∧
    ilsqE 5 (0, 0) ≠ Except.error PyErr.invalidCoefficient := by
  refine ⟨by norm_num [npApply, npDivByZero], by norm_num [ilsqE],
    by norm_num [ilsqE]; exact fun h => PyErr.noConfusion h⟩

/-! ## Derived electrical quantities over `ℝ` (`src/checkupy/checkupy.py`)

Each segment property computes `(resistance**2 + reactance**2) ** 0.5` and
`atan(reactance / resistance) * 180 / pi`; the two formulas are shared by
all segments and are factored out here. -/

/-- The per-segment impedance `(res**2 + rea**2) ** 0.5` (real power). -/
noncomputable def impedance (res rea : ℝ) : ℝ := (res ^ 2 + rea ^ 2) ^ (0.5 : ℝ)

/-- The argument of `** 0.5` is the nonnegative number `res² + rea²`, so the
real power agrees with the square root. -/
theorem impedance_eq_sqrt (res rea : ℝ) :
    impedance res rea = Real.sqrt (res ^ 2 + rea ^ 2) := by
  unfold impedance
  rw [Real.sqrt_eq_rpow]
  norm_num

/-- `BIAInput._phaseangle_deg`: `atan(rea / res) * 180 / pi`. -/
noncomputable def phaseangle_deg (res rea : ℝ) : ℝ :=
  Real.arctan (rea / res) * 180 / Real.pi

/-- A fully numeric measurement: the subject attributes and the 16 stored
electrical values of a `BIAInput` object, over `ℝ`. -/
structure BIA where
  age : ℝ
  sex : Sex
  height : ℝ
  weight : ℝ
  left_arm_resistance : ℝ
  left_arm_reactance : ℝ
  left_leg_resistance : ℝ
  left_leg_reactance : ℝ
  left_trunk_resistance : ℝ
  left_trunk_reactance : ℝ
  left_body_resistance : ℝ
  left_body_reactance : ℝ
  right_arm_resistance : ℝ
  right_arm_reactance : ℝ
  right_leg_resistance : ℝ
  right_leg_reactance : ℝ
  right_trunk_resistance : ℝ
  right_trunk_reactance : ℝ
  right_body_resistance : ℝ
  right_body_reactance : ℝ

/-- Property `left_arm_impedance`. -/
noncomputable def BIA.left_arm_impedance (m : BIA) : ℝ :=
  impedance m.left_arm_resistance m.left_arm_reactance

/-- Property `left_body_impedance`. -/
noncomputable def BIA.left_body_impedance (m : BIA) : ℝ :=
  impedance m.left_body_resistance m.left_body_reactance

/-- Property `right_body_impedance`. -/
noncomputable def BIA.right_body_impedance (m : BIA) : ℝ :=
  impedance m.right_body_resistance m.right_body_reactance

/-- Property `left_body_phaseangle`. -/
noncomputable def BIA.left_body_phaseangle (m : BIA) : ℝ :=
  phaseangle_deg m.left_body_resistance m.left_body_reactance

/-- Property `right_body_phaseangle`. -/
noncomputable def BIA.right_body_phaseangle (m : BIA) : ℝ :=
  phaseangle_deg m.right_body_resistance m.right_body_reactance

/-- Property `total_body_resistance`:
`(left_body_resistance + right_body_resistance) / 2`. -/
noncomputable def BIA.total_body_resistance (m : BIA) : ℝ :=
  (m.left_body_resistance + m.right_body_resistance) / 2

/-- Property `total_body_reactance`:
`(left_body_reactance + right_body_reactance) / 2`. -/
noncomputable def BIA.total_body_reactance (m : BIA) : ℝ :=
  (m.left_body_reactance + m.right_body_reactance) / 2

/-- Property `total_body_impedance`:
`(right_body_impedance + left_body_impedance) / 2`. -/
noncomputable def BIA.total_body_impedance (m : BIA) : ℝ :=
  (m.right_body_impedance + m.left_body_impedance) / 2

/-- Property `total_body_phaseangle`:
`(right_body_phaseangle + left_body_phaseangle) / 2`. -/
noncomputable def BIA.total_body_phaseangle (m : BIA) : ℝ :=
  (m.right_body_phaseangle + m.left_body_phaseangle) / 2

/-- Claim C8: for all finite (r, x), the per-segment impedance
`sqrt(r² + x²)` is at least `max |r| |x|`; in particular this holds for the
`left_arm_impedance` property of every measurement. -/
theorem impedance_ge_max_abs :
    (∀ res rea : ℝ, max |res| |rea| ≤ impedance res rea) ∧
    ∀ m : BIA, max |m.left_arm_resistance| |m.left_arm_reactance|
      ≤ m.left_arm_impedance := by
  have h : ∀ res rea : ℝ, max |res| |rea| ≤ impedance res rea := by
    intro res rea
    rw [impedance_eq_sqrt]
    refine max_le ?_ ?_
    · rw [← Real.sqrt_sq_eq_abs]
      exact Real.sqrt_le_sqrt (by nlinarith [sq_nonneg rea])
    · rw [← Real.sqrt_sq_eq_abs]
      exact Real.sqrt_le_sqrt (by nlinarith [sq_nonneg res])
  exact ⟨h, fun m => h m.left_arm_resistance m.left_arm_reactance⟩

/-- The square root of 25 is 5. -/
theorem sqrt_twentyfive : Real.sqrt 25 = 5 := by
  rw [show (25 : ℝ) = 5 ^ 2 by norm_num, Real.sqrt_sq (by norm_num)]

/-- A concrete measurement whose left body segment reads (3, 4) and whose
right body segment reads (0, 5): both sides have impedance 5, while the
averaged resistance/reactance pair (1.5, 4.5) has impedance √22.5 < 5. -/
noncomputable def mC2 : BIA where
  age := 30
  sex := .M
  height := 175
  weight := 75
  left_arm_resistance := 0
  left_arm_reactance := 0
  left_leg_resistance := 0
  left_leg_reactance := 0
  left_trunk_resistance := 0
  left_trunk_reactance := 0
  left_body_resistance := 3
  left_body_reactance := 4
  right_arm_resistance := 0
  right_arm_reactance := 0
  right_leg_resistance := 0
  right_leg_reactance := 0
  right_trunk_resistance := 0
  right_trunk_reactance := 0
  right_body_resistance := 0
  right_body_reactance := 5

/-- On `mC2` the code's total body impedance is 5. -/
theorem mC2_total_body_impedance : mC2.total_body_impedance = 5 := by
  show (impedance 0 5 + impedance 3 4) / 2 = 5
  rw [impedance_eq_sqrt, impedance_eq_sqrt,
    show ((0 : ℝ) ^ 2 + 5 ^ 2) = 25 by norm_num,
    show ((3 : ℝ) ^ 2 + 4 ^ 2) = 25 by norm_num, sqrt_twentyfive]
  norm_num

/-- On `mC2` the impedance of the averaged raw values is below 5. -/
theorem mC2_impedance_of_means_lt :
    impedance ((mC2.left_body_resistance + mC2.right_body_resistance) / 2)
      ((mC2.left_body_reactance + mC2.right_body_reactance) / 2) < 5 := by
  show impedance ((3 + 0) / 2) ((4 + 5) / 2) < 5
  rw [impedance_eq_sqrt, show (((3 : ℝ) + 0) / 2) ^ 2 + (((4 : ℝ) + 5) / 2) ^ 2
    = 22.5 by norm_num]
  calc Real.sqrt 22.5 < Real.sqrt 25 := Real.sqrt_lt_sqrt (by norm_num) (by norm_num)
    _ = 5 := sqrt_twentyfive

/-- Claim C2 counterexample: on the concrete measurement `mC2` the code's
`total_body_impedance` (the mean of the two sides' impedances, here 5)
differs from the impedance of the averaged resistance/reactance values
(here √22.5), so whole-body impedance is not computed by first averaging
the raw values. -/
theorem total_body_impedance_counterexample :
    mC2.total_body_impedance = 5 ∧
    impedance ((mC2.left_body_resistance + mC2.right_body_resistance) / 2)
        ((mC2.left_body_reactance + mC2.right_body_reactance) / 2) < 5 ∧
    mC2.total_body_impedance
      ≠ impedance ((mC2.left_body_resistance + mC2.right_body_resistance) / 2)
          ((mC2.left_body_reactance + mC2.right_body_reactance) / 2) := by
  refine ⟨mC2_total_body_impedance, mC2_impedance_of_means_lt, ?_⟩
  rw [mC2_total_body_impedance]
  exact (ne_of_lt mC2_impedance_of_means_lt).symm

/-- Claim C2 amended: `total_body_impedance` and `total_body_phaseangle`
are the arithmetic means of the two sides' individually computed impedances
and phase angles (only `total_body_resistance` / `total_body_reactance`
average the stored raw values), and on `mC2` this differs from the
impedance-of-averages ordering that the claim asserts. -/
theorem total_body_impedance_averages_sides (m : BIA) :
    m.total_body_impedance
      = (impedance m.right_body_resistance m.right_body_reactance
          + impedance m.left_body_resistance m.left_body_reactance) / 2 ∧
    m.total_body_phaseangle
      = (phaseangle_deg m.right_body_resistance m.right_body_reactance
          + phaseangle_deg m.left_body_resistance m.left_body_reactance) / 2 ∧
    m.total_body_resistance = (m.left_body_resistance + m.right_body_resistance) / 2 ∧
    m.total_body_reactance = (m.left_body_reactance + m.right_body_reactance) / 2 ∧
    mC2.total_body_impedance
      ≠ impedance ((mC2.left_body_resistance + mC2.right_body_resistance) / 2)
          ((mC2.left_body_reactance + mC2.right_body_reactance) / 2) := by
  refine ⟨rfl, rfl, rfl, rfl, ?_⟩
  rw [mC2_total_body_impedance]
  exact (ne_of_lt mC2_impedance_of_means_lt).symm

/-! ## The validity gate `BIAInput.is_valid` (claim C3) -/

/-- The six per-side checks accumulated by the loop body of `is_valid`
(`res/hgt` in [200, 600], `rea/hgt` in [10, 60], phase angle in [3, 12]). -/
def bodySideChecks (res rea hgt pa : ℝ) : Prop :=
  200 ≤ res / hgt ∧ res / hgt ≤ 600 ∧ 10 ≤ rea / hgt ∧ rea / hgt ≤ 60 ∧
    3 ≤ pa ∧ pa ≤ 12

/-- `BIAInput.is_valid` on a fully numeric measurement: the product of
indicator factors is nonzero exactly when every per-side check and the
left/right phase-angle agreement check hold (`hgt = height / 100`). -/
def BIA.is_valid (m : BIA) : Prop :=
  bodySideChecks m.left_body_resistance m.left_body_reactance (m.height / 100)
    m.left_body_phaseangle ∧
  bodySideChecks m.right_body_resistance m.right_body_reactance (m.height / 100)
    m.right_body_phaseangle ∧
  |m.left_body_phaseangle - m.right_body_phaseangle| ≤ 1

/-- The validity gate as worded by the specification: per side, resistance
over height in meters lies in [200, 600], reactance over height in meters
lies in [10, 60], the phase angle lies in [3, 12] degrees, and the two
sides' phase angles differ by at most 1 degree. -/
def is_valid_spec (m : BIA) : Prop :=
  m.left_body_resistance / (m.height / 100) ∈ Set.Icc (200 : ℝ) 600 ∧
  m.left_body_reactance / (m.height / 100) ∈ Set.Icc (10 : ℝ) 60 ∧
  m.left_body_phaseangle ∈ Set.Icc (3 : ℝ) 12 ∧
  m.right_body_resistance / (m.height / 100) ∈ Set.Icc (200 : ℝ) 600 ∧
  m.right_body_reactance / (m.height / 100) ∈ Set.Icc (10 : ℝ) 60 ∧
  m.right_body_phaseangle ∈ Set.Icc (3 : ℝ) 12 ∧
  |m.left_body_phaseangle - m.right_body_phaseangle| ≤ 1

/-- For nonnegative arguments the arctangent is below its argument. -/
theorem arctan_le_self_of_nonneg {x : ℝ} (hx : 0 ≤ x) : Real.arctan x ≤ x := by
  rcases eq_or_lt_of_le hx with h | h
  · rw [← h, Real.arctan_zero]
  · have h1 : 0 < Real.arctan x := by
      rw [← Real.arctan_zero]
      exact Real.arctan_strictMono h
    have h2 := Real.lt_tan h1 (Real.arctan_lt_pi_div_two x)
    rw [Real.tan_arctan] at h2
    exact le_of_lt h2

/-- For nonnegative arguments the arctangent is above `x / (1 + x²)`. -/
theorem arctan_lower_bound {x : ℝ} (hx : 0 ≤ x) :
    x / (1 + x ^ 2) ≤ Real.arctan x := by
  have hy0 : 0 ≤ Real.arctan x := by
    rcases eq_or_lt_of_le hx with h | h
    · rw [← h, Real.arctan_zero]
    · refine le_of_lt ?_
      rw [← Real.arctan_zero]
      exact Real.arctan_strictMono h
  have hpos : (0 : ℝ) < 1 + x ^ 2 := by positivity
  have hprod : Real.sin (Real.arctan x) * Real.cos (Real.arctan x)
      = x / (1 + x ^ 2) := by
    rw [Real.sin_arctan, Real.cos_arctan, div_mul_div_comm, mul_one,
      Real.mul_self_sqrt hpos.le]
  have hsin : 0 ≤ Real.sin (Real.arctan x) := by
    rw [Real.sin_arctan]
    exact div_nonneg hx (Real.sqrt_nonneg _)
  calc x / (1 + x ^ 2)
      = Real.sin (Real.arctan x) * Real.cos (Real.arctan x) := hprod.symm
    _ ≤ Real.sin (Real.arctan x) * 1 :=
        mul_le_mul_of_nonneg_left (Real.cos_le_one _) hsin
    _ = Real.sin (Real.arctan x) := mul_one _
    _ ≤ Real.arctan x := Real.sin_le hy0

/-- The example phase angle `atan(40/400)·180/π ≈ 5.71°` is at least 3°. -/
theorem pha_400_40_ge_three : 3 ≤ phaseangle_deg 400 40 := by
  unfold phaseangle_deg
  rw [show (40 : ℝ) / 400 = 1 / 10 by norm_num]
  have h2 : (1 / 10 : ℝ) / (1 + (1 / 10) ^ 2) ≤ Real.arctan (1 / 10) :=
    arctan_lower_bound (by norm_num)
  have h3 : Real.pi < 3.15 := Real.pi_lt_d2
  have h4 : 0 < Real.pi := Real.pi_pos
  rw [le_div_iff₀ h4]
  nlinarith [h2]

/-- The example phase angle `atan(40/400)·180/π ≈ 5.71°` is at most 12°. -/
theorem pha_400_40_le_twelve : phaseangle_deg 400 40 ≤ 12 := by
  unfold phaseangle_deg
  rw [show (40 : ℝ) / 400 = 1 / 10 by norm_num]
  have h2 : Real.arctan (1 / 10) ≤ 1 / 10 := arctan_le_self_of_nonneg (by norm_num)
  have h3 : 3.14 < Real.pi := Real.pi_gt_d2
  have h4 : 0 < Real.pi := Real.pi_pos
  rw [div_le_iff₀ h4]
  nlinarith [h2]

/-- The specification's example measurement: 400 Ω resistance, 40 Ω
reactance on both body sides, height 170 cm. -/
noncomputable def mC3 : BIA where
  age := 30
  sex := .M
  height := 170
  weight := 70
  left_arm_resistance := 0
  left_arm_reactance := 0
  left_leg_resistance := 0
  left_leg_reactance := 0
  left_trunk_resistance := 0
  left_trunk_reactance := 0
  left_body_resistance := 400
  left_body_reactance := 40
  right_arm_resistance := 0
  right_arm_reactance := 0
  right_leg_resistance := 0
  right_leg_reactance := 0
  right_trunk_resistance := 0
  right_trunk_reactance := 0
  right_body_resistance := 400
  right_body_reactance := 40

/-- The example measurement passes the validity gate. -/
theorem mC3_is_valid : mC3.is_valid := by
  have hge := pha_400_40_ge_three
  have hle := pha_400_40_le_twelve
  refine ⟨⟨?_, ?_, ?_, ?_, hge, hle⟩, ⟨?_, ?_, ?_, ?_, hge, hle⟩, ?_⟩
  · show (200 : ℝ) ≤ 400 / (170 / 100); norm_num
  · show (400 : ℝ) / (170 / 100) ≤ 600; norm_num
  · show (10 : ℝ) ≤ 40 / (170 / 100); norm_num
  · show (40 : ℝ) / (170 / 100) ≤ 60; norm_num
  · show (200 : ℝ) ≤ 400 / (170 / 100); norm_num
  · show (400 : ℝ) / (170 / 100) ≤ 600; norm_num
  · show (10 : ℝ) ≤ 40 / (170 / 100); norm_num
  · show (40 : ℝ) / (170 / 100) ≤ 60; norm_num
  · show |phaseangle_deg 400 40 - phaseangle_deg 400 40| ≤ 1
    rw [sub_self, abs_zero]
    norm_num

/-! ## Optional attributes and Python error semantics (claims C1, C3)

A stored attribute is an `Option ℝ` (`none` is Python `None`).  The result
of evaluating an expression is `Except PyErr (Option ℝ)`: either a raised
error, or a Python value (a float, or `None` itself). -/

/-- A measurement whose 16 electrical attributes may hold `None`. -/
structure BIAOpt where
  age : ℝ
  sex : Sex
  height : ℝ
  weight : ℝ
  left_arm_resistance : Option ℝ
  left_arm_reactance : Option ℝ
  left_leg_resistance : Option ℝ
  left_leg_reactance : Option ℝ
  left_trunk_resistance : Option ℝ
  left_trunk_reactance : Option ℝ
  left_body_resistance : Option ℝ
  left_body_reactance : Option ℝ
  right_arm_resistance : Option ℝ
  right_arm_reactance : Option ℝ
  right_leg_resistance : Option ℝ
  right_leg_reactance : Option ℝ
  right_trunk_resistance : Option ℝ
  right_trunk_reactance : Option ℝ
  right_body_resistance : Option ℝ
  right_body_reactance : Option ℝ

/-- The result of evaluating a Python arithmetic expression. -/
abbrev PyR := Except PyErr (Option ℝ)

/-- A float literal or an always-present float attribute. -/
def pyNum (x : ℝ) : PyR := .ok (some x)

/-- Reading an optional attribute yields its value (possibly `None`). -/
def pyAttr (v : Option ℝ) : PyR := .ok v

/-- A Python binary arithmetic operator: errors propagate (left operand
first), and an operand that is `None` raises `TypeError`. -/
def pyBin (f : ℝ → ℝ → ℝ) : PyR → PyR → PyR
  | .error e, _ => .error e
  | .ok _, .error e => .error e
  | .ok none, .ok _ => .error .typeError
  | .ok (some _), .ok none => .error .typeError
  | .ok (some a), .ok (some b) => .ok (some (f a b))

/-- Python `+`. -/
def pyAdd : PyR → PyR → PyR := pyBin (fun a b => a + b)

/-- Python `*`. -/
def pyMul : PyR → PyR → PyR := pyBin (fun a b => a * b)

/-- Python `/`: like the other operators, but a zero divisor raises
`ZeroDivisionError`. -/
noncomputable def pyDiv : PyR → PyR → PyR
  | .error e, _ => .error e
  | .ok _, .error e => .error e
  | .ok none, .ok _ => .error .typeError
  | .ok (some _), .ok none => .error .typeError
  | .ok (some a), .ok (some b) =>
      if b = 0 then .error .zeroDivisionError else .ok (some (a / b))

/-- A Python unary operation (`** 2`, `** 0.5`, `math.atan`): errors
propagate and a `None` operand raises `TypeError`. -/
def pyUn (f : ℝ → ℝ) : PyR → PyR
  | .error e => .error e
  | .ok none => .error .typeError
  | .ok (some a) => .ok (some (f a))

/-- Python `** 2`. -/
def pySq : PyR → PyR := pyUn (fun a => a ^ 2)

/-- Python `** 0.5` (the argument is `res² + rea²`, which is nonnegative
whenever it is reached). -/
noncomputable def pyPowHalf : PyR → PyR := pyUn (fun a => a ^ (0.5 : ℝ))

/-- Python `math.atan`. -/
noncomputable def pyAtan : PyR → PyR := pyUn Real.arctan

/-- `total_body_resistance` under Python semantics. -/
noncomputable def BIAOpt.total_body_resistanceE (m : BIAOpt) : PyR :=
  pyDiv (pyAdd (pyAttr m.left_body_resistance) (pyAttr m.right_body_resistance))
    (pyNum 2)

/-- `total_body_reactance` under Python semantics. -/
noncomputable def BIAOpt.total_body_reactanceE (m : BIAOpt) : PyR :=
  pyDiv (pyAdd (pyAttr m.left_body_reactance) (pyAttr m.right_body_reactance))
    (pyNum 2)

/-- `left_body_impedance` under Python semantics. -/
noncomputable def BIAOpt.left_body_impedanceE (m : BIAOpt) : PyR :=
  pyPowHalf (pyAdd (pySq (pyAttr m.left_body_resistance))
    (pySq (pyAttr m.left_body_reactance)))

/-- `right_body_impedance` under Python semantics. -/
noncomputable def BIAOpt.right_body_impedanceE (m : BIAOpt) : PyR :=
  pyPowHalf (pyAdd (pySq (pyAttr m.right_body_resistance))
    (pySq (pyAttr m.right_body_reactance)))

/-- `total_body_impedance` under Python semantics. -/
noncomputable def BIAOpt.total_body_impedanceE (m : BIAOpt) : PyR :=
  pyDiv (pyAdd m.right_body_impedanceE m.left_body_impedanceE) (pyNum 2)

/-- `_phaseangle_deg` under Python semantics. -/
noncomputable def phaseangle_degE (res rea : PyR) : PyR :=
  pyDiv (pyMul (pyAtan (pyDiv rea res)) (pyNum 180)) (pyNum Real.pi)

/-- `left_body_phaseangle` under Python semantics. -/
noncomputable def BIAOpt.left_body_phaseangleE (m : BIAOpt) : PyR :=
  phaseangle_degE (pyAttr m.left_body_resistance) (pyAttr m.left_body_reactance)

/-- `right_body_phaseangle` under Python semantics. -/
noncomputable def BIAOpt.right_body_phaseangleE (m : BIAOpt) : PyR :=
  phaseangle_degE (pyAttr m.right_body_resistance) (pyAttr m.right_body_reactance)

/-- `total_body_phaseangle` under Python semantics. -/
noncomputable def BIAOpt.total_body_phaseangleE (m : BIAOpt) : PyR :=
  pyDiv (pyAdd m.right_body_phaseangleE m.left_body_phaseangleE) (pyNum 2)

/-- `Fitness.total_body_water` under Python semantics: the 8-term
regression of lines 862–871 of `src/checkupy/checkupy.py`, with Python's
left-to-right evaluation of the sum. -/
noncomputable def fitness_total_body_waterE (m : BIAOpt) : PyR :=
  pyAdd (pyAdd (pyAdd (pyAdd (pyAdd (pyAdd (pyAdd
    (pyNum (-17.75953))
    (pyMul (pyNum 0.12309) (pyNum m.weight)))
    (pyMul (pyNum 0.00734) (pyNum m.age)))
    (pyDiv (pyMul (pyNum 0.55780) (pyNum (m.height ^ 2))) m.total_body_resistanceE))
    (pyMul (pyNum 0.00208) (pySq m.total_body_reactanceE)))
    (pyDiv (pyMul (pyNum 0.01627) (pyNum (m.height ^ 2))) m.total_body_impedanceE))
    (pyMul (pyNum 0.16738) (pySq m.total_body_phaseangleE)))
    (pyDiv (pyMul (pyNum 0.00152) (pyNum (m.height ^ 2))) m.total_body_phaseangleE)

/-- `BIAInput.is_valid` under Python semantics, following the evaluation
order of the source: for each side the phase angle (`rea / res`) is
computed before the ratio comparisons, so a `None` resistance or reactance
raises `TypeError` and a zero resistance (or zero height) raises
`ZeroDivisionError`; only with both sides fully numeric does the call
return the boolean decision. -/
noncomputable def BIAOpt.is_validE (m : BIAOpt) : Except PyErr Prop :=
  match m.left_body_resistance, m.left_body_reactance with
  | none, _ => .error .typeError
  | some _, none => .error .typeError
  | some lr, some lx =>
    if lr = 0 then .error .zeroDivisionError
    else if m.height / 100 = 0 then .error .zeroDivisionError
    else
      match m.right_body_resistance, m.right_body_reactance with
      | none, _ => .error .typeError
      | some _, none => .error .typeError
      | some rr, some rx =>
        if rr = 0 then .error .zeroDivisionError
        else .ok
          (bodySideChecks lr lx (m.height / 100)
              (Real.arctan (lx / lr) * 180 / Real.pi) ∧
           bodySideChecks rr rx (m.height / 100)
              (Real.arctan (rx / rr) * 180 / Real.pi) ∧
           |Real.arctan (lx / lr) * 180 / Real.pi
              - Real.arctan (rx / rr) * 180 / Real.pi| ≤ 1)

/-- A measurement with the left body resistance set to `None` and every
other attribute numeric. -/
noncomputable def mC3none : BIAOpt where
  age := 30
  sex := .M
  height := 170
  weight := 70
  left_arm_resistance := some 300
  left_arm_reactance := some 30
  left_leg_resistance := some 300
  left_leg_reactance := some 30
  left_trunk_resistance := some 30
  left_trunk_reactance := some 10
  left_body_resistance := none
  left_body_reactance := some 40
  right_arm_resistance := some 300
  right_arm_reactance := some 30
  right_leg_resistance := some 300
  right_leg_reactance := some 30
  right_trunk_resistance := some 30
  right_trunk_reactance := some 10
  right_body_resistance := some 400
  right_body_reactance := some 40

/-- Claim C3 counterexample: on a measurement whose left body resistance is
`None`, `is_valid()` raises `TypeError` — it does not return `False` as the
claim states. -/
theorem is_valid_none_raises :
    mC3none.is_validE = Except.error PyErr.typeError ∧
    mC3none.is_validE ≠ Except.ok False := by
  have h1 : mC3none.is_validE = Except.error PyErr.typeError := rfl
  refine ⟨h1, ?_⟩
  rw [h1]
  exact fun h => Except.noConfusion h

/-- Claim C3 amended: on fully numeric inputs `is_valid()` returns `True`
exactly when all the per-side ratio, phase-angle and left/right agreement
checks pass (and the 400 Ω / 40 Ω / 170 cm example is valid); but when a
required input is `None` the call raises `TypeError` instead of returning
`False`. -/
theorem is_valid_characterization :
    (∀ m : BIA, m.is_valid ↔ is_valid_spec m) ∧
    mC3.is_valid ∧
    mC3none.is_validE = Except.error PyErr.typeError := by
  refine ⟨?_, mC3_is_valid, rfl⟩
  intro m
  unfold BIA.is_valid is_valid_spec bodySideChecks
  simp only [Set.mem_Icc]
  tauto

/-! ## pyakern `BIAMeasure`: the `_nones` null-propagation pattern -/

/-- `BIAMeasure._phase_angle_deg` (`src/pyakern/equations.py`): `None` when
either input is `None`, otherwise `atan(rea/res) * 180 / pi`.  (With
`res = 0` Python would raise `ZeroDivisionError`; that branch is not
exercised here and Lean real division is total.) -/
noncomputable def pyakern_phase_angle_deg (res rea : Option ℝ) : Option ℝ :=
  match res, rea with
  | none, _ => none
  | _, none => none
  | some r, some x => some (Real.arctan (x / r) * 180 / Real.pi)

/-- The attributes of a pyakern `BIAMeasure` consulted by the outputs
embedded below (the remaining segment attributes play no role in them). -/
structure AkernMeas where
  age : ℝ
  sex : Sex
  height : ℝ
  weight : ℝ
  right_body_r : Option ℝ
  right_body_x : Option ℝ

/-- `BIAMeasure.tbw_atl`: `(None, None)` when `right_body_r` is `None`,
otherwise the athlete total-body-water regression and its ratio to body
weight. -/
noncomputable def AkernMeas.tbw_atl (m : AkernMeas) : Option ℝ × Option ℝ :=
  match m.right_body_r with
  | none => (none, none)
  | some r =>
    let lt := 0.286 + 0.195 * m.height ^ 2 / r + 0.385 * m.weight
      + 5.086 * (if m.sex = Sex.M then (1 : ℝ) else 0)
    (some lt, some (lt / m.weight))

/-- The regression expression inside `float(...)` of `BIAMeasure.ecw_atl`
(`src/pyakern/equations.py` lines 453–459), under Python semantics:
`1.579 + 0.055*height**2/right_body_r + 0.127*weight
+ 0.006*height**2/right_body_x + 0.932*is_male()`.  Unlike
`_phase_angle_deg` and `tbw_atl`, this field has no `_nones` guard, so a
`None` in `right_body_r` or `right_body_x` raises `TypeError`. -/
noncomputable def AkernMeas.ecw_atl_lt (m : AkernMeas) : PyR :=
  pyAdd (pyAdd (pyAdd (pyAdd
    (pyNum 1.579)
    (pyDiv (pyMul (pyNum 0.055) (pyNum (m.height ^ 2))) (pyAttr m.right_body_r)))
    (pyMul (pyNum 0.127) (pyNum m.weight)))
    (pyDiv (pyMul (pyNum 0.006) (pyNum (m.height ^ 2))) (pyAttr m.right_body_x)))
    (pyMul (pyNum 0.932) (pyNum (if m.sex = Sex.M then 1 else 0)))

/-- `BIAMeasure.ecw_atl` under Python semantics: evaluate the unguarded
`lt` expression (propagating any raised error), then
`tbw = self.tbw_atl[0]; rl = (lt / tbw) if tbw is not None else None;
return lt, rl`. -/
noncomputable def AkernMeas.ecw_atl (m : AkernMeas) :
    Except PyErr (Option ℝ × Option ℝ) :=
  match m.ecw_atl_lt with
  | .error e => .error e
  | .ok none => .error .typeError
  | .ok (some lt) =>
    match m.tbw_atl.1 with
    | none => .ok (some lt, none)
    | some tbw =>
      if tbw = 0 then .error .zeroDivisionError
      else .ok (some lt, some (lt / tbw))

/-- A measurement with the left body resistance `None`, used to evaluate
`Fitness.total_body_water` under Python semantics. -/
noncomputable def mC1none : BIAOpt where
  age := 30
  sex := .M
  height := 175
  weight := 75
  left_arm_resistance := some 300
  left_arm_reactance := some 30
  left_leg_resistance := some 300
  left_leg_reactance := some 30
  left_trunk_resistance := some 30
  left_trunk_reactance := some 10
  left_body_resistance := none
  left_body_reactance := some 50
  right_arm_resistance := some 300
  right_arm_reactance := some 30
  right_leg_resistance := some 300
  right_leg_reactance := some 30
  right_trunk_resistance := some 30
  right_trunk_reactance := some 10
  right_body_resistance := some 495
  right_body_reactance := some 48

/-- Claim C1 counterexample: with the left body resistance set to `None`,
`Fitness.total_body_water` raises `TypeError` (at `None + 495` inside
`total_body_resistance`) — it does not evaluate to `None`. -/
theorem fitness_tbw_none_raises :
    fitness_total_body_waterE mC1none = Except.error PyErr.typeError ∧
    fitness_total_body_waterE mC1none ≠ Except.ok none := by
  have h1 : fitness_total_body_waterE mC1none = Except.error PyErr.typeError := rfl
  refine ⟨h1, ?_⟩
  rw [h1]
  exact fun h => Except.noConfusion h

/-- Claim C1 amended: `None`-propagation is not a blanket invariant of
either revision, only of the individually `_nones`-guarded fields of the
pyakern `BIAMeasure`: `_phase_angle_deg` returns `None` whenever an input
is `None` and `tbw_atl` returns `(None, None)` when `right_body_r` is
`None`, but the unguarded `ecw_atl` raises `TypeError` on the same `None`
input, and the checkupy `EquationSet` variants have no guards at all —
`Fitness.total_body_water` raises `TypeError` on `mC1none`. -/
theorem null_propagation_per_revision :
    (∀ res rea : Option ℝ, res = none ∨ rea = none →
      pyakern_phase_angle_deg res rea = none) ∧
    (∀ m : AkernMeas, m.right_body_r = none → m.tbw_atl = (none, none)) ∧
    (∀ m : AkernMeas, m.right_body_r = none →
      m.ecw_atl = Except.error PyErr.typeError) ∧
    fitness_total_body_waterE mC1none = Except.error PyErr.typeError := by
  refine ⟨?_, ?_, ?_, rfl⟩
  · rintro res rea (h | h)
    · subst h; cases rea <;> rfl
    · subst h; cases res <;> rfl
  · intro m h
    unfold AkernMeas.tbw_atl
    rw [h]
  · intro m h
    have hlt : m.ecw_atl_lt = Except.error PyErr.typeError := by
      unfold AkernMeas.ecw_atl_lt
      rw [h]
      rfl
    unfold AkernMeas.ecw_atl
    rw [hlt]

/-- Witness for `null_propagation_per_revision`: the pyakern phase angle at
`res = None`, `rea = 5` is `None`. -/
theorem null_propagation_witness :
    pyakern_phase_angle_deg none (some 5) = none :=
  null_propagation_per_revision.1 none (some 5) (Or.inl rfl)

/-! ## The Inbody (ML-model) variant and `CheckupBIA` (claims C7, C10)

The external ONNX predictor is opaque: any function from the ordered
feature dictionary (a list of label/value pairs) to an output mapping. -/

/-- The type of the external predictor. -/
abbrev Predictor := List (String × ℝ) → String → ℝ

/-- The arguments of `Inbody.__init__`: no sex, no trunk fields, no
corrected-values flag. -/
structure InbodyArgs where
  age : ℝ
  height : ℝ
  weight : ℝ
  left_arm_resistance : ℝ
  left_arm_reactance : ℝ
  left_leg_resistance : ℝ
  left_leg_reactance : ℝ
  left_body_resistance : ℝ
  left_body_reactance : ℝ
  right_arm_resistance : ℝ
  right_arm_reactance : ℝ
  right_leg_resistance : ℝ
  right_leg_reactance : ℝ
  right_body_resistance : ℝ
  right_body_reactance : ℝ

/-- The attributes of an `Inbody` object after `super().__init__` (with
`sex="M"` hard-coded and `corrected_electrical_values=False`, so the
segment values are stored unchanged — cf. `fitnessInit_raw`).  The trunk
slots hold `np.nan` and feed neither the features nor the outputs, so they
are not tracked. -/
structure InbodyState where
  sex : Sex
  age : ℝ
  height : ℝ
  weight : ℝ
  left_arm_resistance : ℝ
  left_arm_reactance : ℝ
  left_leg_resistance : ℝ
  left_leg_reactance : ℝ
  left_body_resistance : ℝ
  left_body_reactance : ℝ
  right_arm_resistance : ℝ
  right_arm_reactance : ℝ
  right_leg_resistance : ℝ
  right_leg_reactance : ℝ
  right_body_resistance : ℝ
  right_body_reactance : ℝ

/-- `Inbody.__init__` up to the predictor call: `sex` is the literal `"M"`,
every other stored attribute is the corresponding argument. -/
def inbodyInit (a : InbodyArgs) : InbodyState where
  sex := Sex.M
  age := a.age
  height := a.height
  weight := a.weight
  left_arm_resistance := a.left_arm_resistance
  left_arm_reactance := a.left_arm_reactance
  left_leg_resistance := a.left_leg_resistance
  left_leg_reactance := a.left_leg_reactance
  left_body_resistance := a.left_body_resistance
  left_body_reactance := a.left_body_reactance
  right_arm_resistance := a.right_arm_resistance
  right_arm_reactance := a.right_arm_reactance
  right_leg_resistance := a.right_leg_resistance
  right_leg_reactance := a.right_leg_reactance
  right_body_resistance := a.right_body_resistance
  right_body_reactance := a.right_body_reactance

/-- The `input_labels` list passed to `OnnxModel` in `Inbody.__init__`
(order fixed at model creation). -/
def inbodyInputLabels : List String :=
  ["height", "weight", "age",
   "left_arm_resistance", "left_arm_reactance",
   "left_leg_resistance", "left_leg_reactance",
   "left_body_resistance", "left_body_reactance",
   "right_arm_resistance", "right_arm_reactance",
   "right_leg_resistance", "right_leg_reactance",
   "right_body_resistance", "right_body_reactance"]

/-- The feature dictionary `{i: getattr(self, i) for i in input_labels}`:
one `getattr` per label, in label order. -/
def inbodyFeatures (st : InbodyState) : List (String × ℝ) :=
  [("height", st.height), ("weight", st.weight), ("age", st.age),
   ("left_arm_resistance", st.left_arm_resistance),
   ("left_arm_reactance", st.left_arm_reactance),
   ("left_leg_resistance", st.left_leg_resistance),
   ("left_leg_reactance", st.left_leg_reactance),
   ("left_body_resistance", st.left_body_resistance),
   ("left_body_reactance", st.left_body_reactance),
   ("right_arm_resistance", st.right_arm_resistance),
   ("right_arm_reactance", st.right_arm_reactance),
   ("right_leg_resistance", st.right_leg_resistance),
   ("right_leg_reactance", st.right_leg_reactance),
   ("right_body_resistance", st.right_body_resistance),
   ("right_body_reactance", st.right_body_reactance)]

/-- `self._preds = self._onnx_model(inputs)`: the single predictor call of
`Inbody.__init__`; every overridden output property below reads this one
stored mapping. -/
def inbodyPreds (P : Predictor) (a : InbodyArgs) : String → ℝ :=
  P (inbodyFeatures (inbodyInit a))

/-- `Inbody.total_body_water`. -/
def inbody_total_body_water (P : Predictor) (a : InbodyArgs) : ℝ :=
  inbodyPreds P a "total_body_water"

/-- `Inbody.total_body_extracellularwater`. -/
def inbody_total_body_extracellularwater (P : Predictor) (a : InbodyArgs) : ℝ :=
  inbodyPreds P a "total_body_extracellularwater"

/-- `Inbody.total_body_fatfreemass`. -/
def inbody_total_body_fatfreemass (P : Predictor) (a : InbodyArgs) : ℝ :=
  inbodyPreds P a "total_body_fatfreemass"

/-- `Inbody.total_body_bonemineralcontent`. -/
def inbody_total_body_bonemineralcontent (P : Predictor) (a : InbodyArgs) : ℝ :=
  inbodyPreds P a "total_body_bonemineralcontent"

/-- `Inbody.total_body_skeletalmusclemass`. -/
def inbody_total_body_skeletalmusclemass (P : Predictor) (a : InbodyArgs) : ℝ :=
  inbodyPreds P a "total_body_skeletalmusclemass"

/-- `Inbody.total_body_basalmetabolicrate`. -/
def inbody_total_body_basalmetabolicrate (P : Predictor) (a : InbodyArgs) : ℝ :=
  inbodyPreds P a "total_body_basalmetabolicrate"

/-- `Inbody.total_body_minerals`. -/
def inbody_total_body_minerals (P : Predictor) (a : InbodyArgs) : ℝ :=
  inbodyPreds P a "total_body_minerals"

/-- `Inbody.total_body_proteins`. -/
def inbody_total_body_proteins (P : Predictor) (a : InbodyArgs) : ℝ :=
  inbodyPreds P a "total_body_proteins"

/-- `Inbody.left_arm_fatfreemass`. -/
def inbody_left_arm_fatfreemass (P : Predictor) (a : InbodyArgs) : ℝ :=
  inbodyPreds P a "left_arm_fatfreemass"

/-- `Inbody.left_arm_fatmass`. -/
def inbody_left_arm_fatmass (P : Predictor) (a : InbodyArgs) : ℝ :=
  inbodyPreds P a "left_arm_fatmass"

/-- `Inbody.right_arm_fatfreemass`. -/
def inbody_right_arm_fatfreemass (P : Predictor) (a : InbodyArgs) : ℝ :=
  inbodyPreds P a "right_arm_fatfreemass"

/-- `Inbody.right_arm_fatmass`. -/
def inbody_right_arm_fatmass (P : Predictor) (a : InbodyArgs) : ℝ :=
  inbodyPreds P a "right_arm_fatmass"

/-- `Inbody.left_leg_fatfreemass`. -/
def inbody_left_leg_fatfreemass (P : Predictor) (a : InbodyArgs) : ℝ :=
  inbodyPreds P a "left_leg_fatfreemass"

/-- `Inbody.left_leg_fatmass`. -/
def inbody_left_leg_fatmass (P : Predictor) (a : InbodyArgs) : ℝ :=
  inbodyPreds P a "left_leg_fatmass"

/-- `Inbody.right_leg_fatfreemass`. -/
def inbody_right_leg_fatfreemass (P : Predictor) (a : InbodyArgs) : ℝ :=
  inbodyPreds P a "right_leg_fatfreemass"

/-- `Inbody.right_leg_fatmass`. -/
def inbody_right_leg_fatmass (P : Predictor) (a : InbodyArgs) : ℝ :=
  inbodyPreds P a "right_leg_fatmass"

/-- `Inbody.total_trunk_fatfreemass`. -/
def inbody_total_trunk_fatfreemass (P : Predictor) (a : InbodyArgs) : ℝ :=
  inbodyPreds P a "total_trunk_fatfreemass"

/-- `Inbody.total_trunk_fatmass`. -/
def inbody_total_trunk_fatmass (P : Predictor) (a : InbodyArgs) : ℝ :=
  inbodyPreds P a "total_trunk_fatmass"

/-- `Inbody.total_body_phaseanglecorrected`. -/
def inbody_total_body_phaseanglecorrected (P : Predictor) (a : InbodyArgs) : ℝ :=
  inbodyPreds P a "total_body_phaseanglecorrected"

/-- Claim C7: the Inbody feature vector is exactly the 15 labels of the
claim in that order, contains no trunk fields, its values are the raw
constructor arguments (the `corrected_electrical_values=False` pipeline
leaves them unchanged), and every overridden output property is the direct
lookup of its own name in the single stored prediction mapping
`P (features)`. -/
theorem inbody_feature_vector (P : Predictor) (a : InbodyArgs) :
    inbodyInputLabels
      = ["height", "weight", "age",
         "left_arm_resistance", "left_arm_reactance",
         "left_leg_resistance", "left_leg_reactance",
         "left_body_resistance", "left_body_reactance",
         "right_arm_resistance", "right_arm_reactance",
         "right_leg_resistance", "right_leg_reactance",
         "right_body_resistance", "right_body_reactance"] ∧
    inbodyInputLabels.length = 15 ∧
    "left_trunk_resistance" ∉ inbodyInputLabels ∧
    "left_trunk_reactance" ∉ inbodyInputLabels ∧
    "right_trunk_resistance" ∉ inbodyInputLabels ∧
    "right_trunk_reactance" ∉ inbodyInputLabels ∧
    (inbodyFeatures (inbodyInit a)).map Prod.fst = inbodyInputLabels ∧
    (inbodyFeatures (inbodyInit a)).map Prod.snd
      = [a.height, a.weight, a.age,
         a.left_arm_resistance, a.left_arm_reactance,
         a.left_leg_resistance, a.left_leg_reactance,
         a.left_body_resistance, a.left_body_reactance,
         a.right_arm_resistance, a.right_arm_reactance,
         a.right_leg_resistance, a.right_leg_reactance,
         a.right_body_resistance, a.right_body_reactance] ∧
    inbody_total_body_water P a = inbodyPreds P a "total_body_water" ∧
    inbody_total_body_extracellularwater P a
      = inbodyPreds P a "total_body_extracellularwater" ∧
    inbody_total_body_fatfreemass P a = inbodyPreds P a "total_body_fatfreemass" ∧
    inbody_total_body_bonemineralcontent P a
      = inbodyPreds P a "total_body_bonemineralcontent" ∧
    inbody_total_body_skeletalmusclemass P a
      = inbodyPreds P a "total_body_skeletalmusclemass" ∧
    inbody_total_body_basalmetabolicrate P a
      = inbodyPreds P a "total_body_basalmetabolicrate" ∧
    inbody_total_body_minerals P a = inbodyPreds P a "total_body_minerals" ∧
    inbody_total_body_proteins P a = inbodyPreds P a "total_body_proteins" ∧
    inbody_left_arm_fatfreemass P a = inbodyPreds P a "left_arm_fatfreemass" ∧
    inbody_left_arm_fatmass P a = inbodyPreds P a "left_arm_fatmass" ∧
    inbody_right_arm_fatfreemass P a = inbodyPreds P a "right_arm_fatfreemass" ∧
    inbody_right_arm_fatmass P a = inbodyPreds P a "right_arm_fatmass" ∧
    inbody_left_leg_fatfreemass P a = inbodyPreds P a "left_leg_fatfreemass" ∧
    inbody_left_leg_fatmass P a = inbodyPreds P a "left_leg_fatmass" ∧
    inbody_right_leg_fatfreemass P a = inbodyPreds P a "right_leg_fatfreemass" ∧
    inbody_right_leg_fatmass P a = inbodyPreds P a "right_leg_fatmass" ∧
    inbody_total_trunk_fatfreemass P a = inbodyPreds P a "total_trunk_fatfreemass" ∧
    inbody_total_trunk_fatmass P a = inbodyPreds P a "total_trunk_fatmass" ∧
    inbody_total_body_phaseanglecorrected P a
      = inbodyPreds P a "total_body_phaseanglecorrected" ∧
    inbodyPreds P a = P (inbodyFeatures (inbodyInit a)) := by
  refine ⟨rfl, rfl, ?_, ?_, ?_, ?_, rfl, rfl, rfl, rfl, rfl, rfl, rfl, rfl, rfl, rfl,
    rfl, rfl, rfl, rfl, rfl, rfl, rfl, rfl, rfl, rfl, rfl, rfl⟩ <;>
    simp [inbodyInputLabels]

/-- The arguments of `CheckupBIA.__init__`. -/
structure CheckupArgs where
  age : ℝ
  sex : Sex
  height : ℝ
  weight : ℝ
  left_arm_resistance : ℝ
  left_arm_reactance : ℝ
  left_leg_resistance : ℝ
  left_leg_reactance : ℝ
  left_trunk_resistance : ℝ
  left_trunk_reactance : ℝ
  left_body_resistance : ℝ
  left_body_reactance : ℝ
  right_arm_resistance : ℝ
  right_arm_reactance : ℝ
  right_leg_resistance : ℝ
  right_leg_reactance : ℝ
  right_trunk_resistance : ℝ
  right_trunk_reactance : ℝ
  right_body_resistance : ℝ
  right_body_reactance : ℝ
  corrected_electrical_values : Bool

/-- The arguments `CheckupBIA.__init__` forwards to `Inbody`: exactly the
non-sex, non-trunk, non-flag arguments. -/
def checkupInbodyArgs (a : CheckupArgs) : InbodyArgs where
  age := a.age
  height := a.height
  weight := a.weight
  left_arm_resistance := a.left_arm_resistance
  left_arm_reactance := a.left_arm_reactance
  left_leg_resistance := a.left_leg_resistance
  left_leg_reactance := a.left_leg_reactance
  left_body_resistance := a.left_body_resistance
  left_body_reactance := a.left_body_reactance
  right_arm_resistance := a.right_arm_resistance
  right_arm_reactance := a.right_arm_reactance
  right_leg_resistance := a.right_leg_resistance
  right_leg_reactance := a.right_leg_reactance
  right_body_resistance := a.right_body_resistance
  right_body_reactance := a.right_body_reactance

/-- The `inbody` member of a `CheckupBIA` (its stored attribute state). -/
def checkupInbody (a : CheckupArgs) : InbodyState :=
  inbodyInit (checkupInbodyArgs a)

/-- Claim C10: two `CheckupBIA` constructions whose arguments differ only
in `sex` produce identical `inbody` members — identical stored attributes
(with `sex` hard-coded to `"M"`), identical feature dictionaries, an
identical prediction mapping, and identical outputs — because
`CheckupBIA.__init__` never passes `sex` to `Inbody` and the feature list
has no sex entry. -/
theorem inbody_sex_independent (P : Predictor) (a : CheckupArgs) (s1 s2 : Sex) :
    checkupInbody { a with sex := s1 } = checkupInbody { a with sex := s2 } ∧
    (checkupInbody { a with sex := s1 }).sex = Sex.M ∧
    inbodyFeatures (checkupInbody { a with sex := s1 })
      = inbodyFeatures (checkupInbody { a with sex := s2 }) ∧
    inbodyPreds P (checkupInbodyArgs { a with sex := s1 })
      = inbodyPreds P (checkupInbodyArgs { a with sex := s2 }) ∧
    inbody_total_body_water P (checkupInbodyArgs { a with sex := s1 })
      = inbody_total_body_water P (checkupInbodyArgs { a with sex := s2 }) :=
  ⟨rfl, rfl, rfl, rfl, rfl⟩
